import Mathlib

/-!
Shallow embedding of the waste-risk scoring engine of the LIFO food-waste
platform (`app/main.py`, class `ScoreGenerator`, together with the alternate
urgency formula in `app/models/scoring.py` and the batch-state logic of
`BatchGenerator.generate_batch` that feeds the scoring pipeline).

Conventions of the embedding:
* Python `date` values are day numbers (`ℤ`); `(a - b).days` becomes `a - b`.
* Quantities are `ℕ`, money and scores are exact rationals `ℚ`.
* Python `round(x, 2)` (banker's rounding to two decimals) is `pyRound2`.
* Python `int(x)` (truncation toward zero) is `pyTrunc`.
* `random.uniform(a, b)` draws are supplied by an oracle
  `rng : ℕ → ℚ → ℚ → ℚ` (call index, lower bound, upper bound); a faithful
  oracle returns values inside the requested interval.
-/

set_option autoImplicit false

namespace Lifo

/-- Round-half-to-even on rationals, the tie-breaking rule of Python `round`. -/
def roundHalfEven (y : ℚ) : ℤ :=
  if Int.fract y < 1/2 then ⌊y⌋
  else if 1/2 < Int.fract y then ⌊y⌋ + 1
  else if ⌊y⌋ % 2 = 0 then ⌊y⌋ else ⌊y⌋ + 1

/-- Python `round(x, 2)`: round to two decimal places, ties to even. -/
def pyRound2 (x : ℚ) : ℚ := (roundHalfEven (x * 100) : ℚ) / 100

/-- Python `int(x)`: truncation toward zero. -/
def pyTrunc (x : ℚ) : ℤ := if 0 ≤ x then ⌊x⌋ else ⌈x⌉

theorem roundHalfEven_intCast (n : ℤ) : roundHalfEven (n : ℚ) = n := by
  unfold roundHalfEven
  rw [Int.fract_intCast, Int.floor_intCast]
  norm_num

theorem roundHalfEven_ge_floor (y : ℚ) : ⌊y⌋ ≤ roundHalfEven y := by
  unfold roundHalfEven
  split_ifs <;> omega

theorem roundHalfEven_le_floor_add_one (y : ℚ) : roundHalfEven y ≤ ⌊y⌋ + 1 := by
  unfold roundHalfEven
  split_ifs <;> omega

theorem roundHalfEven_le_of_le (y : ℚ) (b : ℤ) (h : y ≤ b) : roundHalfEven y ≤ b := by
  unfold roundHalfEven
  split_ifs with h1 h2 h3
  · exact Int.floor_le_floor (α := ℚ) (by exact_mod_cast h) |>.trans (by rw [Int.floor_intCast])
  · have hy : y ≠ (b : ℚ) := by
      intro he
      rw [he, Int.fract_intCast] at h2
      norm_num at h2
    have : y < (b : ℚ) := lt_of_le_of_ne h hy
    have := Int.floor_lt.mpr this
    omega
  · exact le_trans (Int.floor_le_floor (α := ℚ) (by exact_mod_cast h))
      (by rw [Int.floor_intCast])
  · have hy : y ≠ (b : ℚ) := by
      intro he
      rw [he, Int.fract_intCast] at h1
      norm_num at h1
    have : y < (b : ℚ) := lt_of_le_of_ne h hy
    have := Int.floor_lt.mpr this
    omega

theorem roundHalfEven_ge_of_ge (y : ℚ) (a : ℤ) (h : (a : ℚ) ≤ y) : a ≤ roundHalfEven y := by
  have := roundHalfEven_ge_floor y
  have ha : a ≤ ⌊y⌋ := Int.le_floor.mpr h
  omega

/-- `round(x, 2)` is the identity on exact two-decimal amounts. -/
theorem pyRound2_eq_self (x : ℚ) (m : ℤ) (h : 100 * x = (m : ℚ)) : pyRound2 x = x := by
  unfold pyRound2
  have h' : x * 100 = (m : ℚ) := by linarith
  rw [h', roundHalfEven_intCast]
  linarith

theorem pyRound2_intCast (n : ℤ) : pyRound2 (n : ℚ) = n := by
  apply pyRound2_eq_self _ (100 * n)
  push_cast
  ring

/-- `round(x, 2)` keeps a value inside an interval with two-decimal endpoints. -/
theorem pyRound2_mem_Icc (x : ℚ) (a b : ℤ)
    (ha : (a : ℚ) / 100 ≤ x) (hb : x ≤ (b : ℚ) / 100) :
    (a : ℚ) / 100 ≤ pyRound2 x ∧ pyRound2 x ≤ (b : ℚ) / 100 := by
  have hxa : (a : ℚ) ≤ x * 100 := by linarith
  have hxb : x * 100 ≤ (b : ℚ) := by linarith
  have h1 := roundHalfEven_ge_of_ge (x * 100) a hxa
  have h2 := roundHalfEven_le_of_le (x * 100) b hxb
  unfold pyRound2
  constructor
  · have : (a : ℚ) ≤ (roundHalfEven (x * 100) : ℚ) := by exact_mod_cast h1
    linarith
  · have : (roundHalfEven (x * 100) : ℚ) ≤ (b : ℚ) := by exact_mod_cast h2
    linarith

/-! ### Urgency sub-score

`ScoreGenerator.calculate_urgency_score` in `app/main.py` (canonical scorer)
and the alternate `BatchScore.calculate_urgency_score` in
`app/models/scoring.py`, which has no `days_until_expiry <= 0` branch and
groups `prepared_foods` with `bakery`. -/

/-- `app/main.py`, `ScoreGenerator.calculate_urgency_score`. -/
def calculate_urgency_score (days_until_expiry : ℤ) (product_category : String) : ℤ :=
  if days_until_expiry ≤ 0 then 100
  else if product_category = "dairy" ∨ product_category = "meat" ∨
      product_category = "produce" then
    max 0 (100 - days_until_expiry * 15)
  else if product_category = "bakery" then
    max 0 (100 - days_until_expiry * 25)
  else
    max 0 (100 - days_until_expiry * 10)

/-- `app/models/scoring.py`, `BatchScore.calculate_urgency_score`
(alternate formula variant; note there is no expired branch). -/
def batchScore_calculate_urgency_score
    (days_until_expiry : ℤ) (product_category : String) : ℤ :=
  if product_category = "dairy" ∨ product_category = "meat" ∨
      product_category = "produce" then
    max 0 (100 - days_until_expiry * 15)
  else if product_category = "bakery" ∨ product_category = "prepared_foods" then
    max 0 (100 - days_until_expiry * 25)
  else
    max 0 (100 - days_until_expiry * 10)

/-- The per-category linear decay rate of the urgency score, as the spec
states it: 15 for dairy/meat/produce, 25 for bakery, 10 otherwise. -/
def specUrgencyRate (product_category : String) : ℤ :=
  if product_category = "dairy" ∨ product_category = "meat" ∨
      product_category = "produce" then 15
  else if product_category = "bakery" then 25
  else 10

/-- C1 counterexample: the claim quantifies over "the urgency-score
computation" and cites `BatchScore.calculate_urgency_score`
(`app/models/scoring.py`), but that variant has no expired branch: at
`days_until_expiry = -1` for `dairy` it returns `115`, not `100`. -/
theorem c1_expired_urgency_counterexample :
    batchScore_calculate_urgency_score (-1) "dairy" = 115 ∧
      batchScore_calculate_urgency_score (-1) "dairy" ≠ 100 := by
  constructor <;> decide

/-- C1 (amended): for the canonical scorer
`ScoreGenerator.calculate_urgency_score` in `app/main.py`, every category
returns exactly 100 when `days_until_expiry ≤ 0`, and otherwise
`max 0 (100 - days_until_expiry * rate)` with rate 15 for
dairy/meat/produce, 25 for bakery and 10 for all other categories. -/
theorem c1_urgency_score_spec (c : String) (d : ℤ) :
    (d ≤ 0 → calculate_urgency_score d c = 100) ∧
      (0 < d → calculate_urgency_score d c = max 0 (100 - d * specUrgencyRate c)) := by
  unfold calculate_urgency_score specUrgencyRate
  split_ifs <;> constructor <;> intro h <;> omega

/-- Witness for C1: concrete instances of both branches of
`c1_urgency_score_spec`. -/
theorem c1_urgency_score_spec_witness :
    calculate_urgency_score (-3) "frozen" = 100 ∧
      calculate_urgency_score 4 "bakery" = max 0 (100 - 4 * specUrgencyRate "bakery") :=
  ⟨(c1_urgency_score_spec "frozen" (-3)).1 (by decide),
    (c1_urgency_score_spec "bakery" 4).2 (by decide)⟩

/-- C8: urgency is antitone in `days_until_expiry` for both urgency
computations in the repository (the canonical `ScoreGenerator` one and the
alternate `BatchScore` one): fewer days until expiry never decreases the
urgency score. -/
theorem c8_urgency_monotone (c : String) (d1 d2 : ℤ) (h : d1 < d2) :
    calculate_urgency_score d2 c ≤ calculate_urgency_score d1 c ∧
      batchScore_calculate_urgency_score d2 c ≤
        batchScore_calculate_urgency_score d1 c := by
  unfold calculate_urgency_score batchScore_calculate_urgency_score
  split_ifs <;> constructor <;> omega

/-- Witness for C8 at a concrete pair of days. -/
theorem c8_urgency_monotone_witness :
    calculate_urgency_score 5 "dairy" ≤ calculate_urgency_score 2 "dairy" ∧
      batchScore_calculate_urgency_score 5 "dairy" ≤
        batchScore_calculate_urgency_score 2 "dairy" :=
  c8_urgency_monotone "dairy" 2 5 (by decide)

/-! ### Economic-risk sub-score

`ScoreGenerator.calculate_economic_risk_score` in `app/main.py`. The three
local variables `base_score`, `expiry_factor` and `category_factor` of the
source become the three helper definitions below. -/

/-- The `base_score` step function over `value_at_risk`. -/
def econBaseScore (value_at_risk : ℚ) : ℚ :=
  if 500 < value_at_risk then 90
  else if 200 < value_at_risk then 75
  else if 100 < value_at_risk then 60
  else if 50 < value_at_risk then 45
  else if 20 < value_at_risk then 30
  else 15

/-- The `expiry_factor` multiplier over `days_until_expiry`. -/
def econExpiryFactor (days_until_expiry : ℤ) : ℚ :=
  if days_until_expiry ≤ 1 then 1.2
  else if days_until_expiry ≤ 3 then 1.1
  else if days_until_expiry ≤ 7 then 1
  else 0.8

/-- The `category_factor` multiplier over the product category. -/
def econCategoryFactor (product_category : String) : ℚ :=
  if product_category = "meat" ∨ product_category = "seafood" then 1.2
  else if product_category = "dairy" ∨ product_category = "produce" then 1.1
  else 1

/-- `app/main.py`, `ScoreGenerator.calculate_economic_risk_score`:
`value_at_risk = current_quantity * current_price`, then
`min(100, base_score * expiry_factor * category_factor)`. -/
def calculate_economic_risk_score (current_quantity : ℕ) (current_price : ℚ)
    (days_until_expiry : ℤ) (product_category : String) : ℚ :=
  min 100 (econBaseScore ((current_quantity : ℚ) * current_price) *
    econExpiryFactor days_until_expiry * econCategoryFactor product_category)

theorem econBaseScore_lb (v : ℚ) : 15 ≤ econBaseScore v := by
  unfold econBaseScore
  split_ifs <;> norm_num

theorem econExpiryFactor_lb (d : ℤ) : 0.8 ≤ econExpiryFactor d := by
  unfold econExpiryFactor
  split_ifs <;> norm_num

theorem econCategoryFactor_lb (c : String) : 1 ≤ econCategoryFactor c := by
  unfold econCategoryFactor
  split_ifs <;> norm_num

/-- C3: the economic-risk score is
`min(100, base * expiry_factor * category_factor)` with base the step
function of `value_at_risk = current_quantity * current_price`; it is always
at most 100, never below 12, and the floor `15 * 0.8 * 1.0 = 12.0` is
reached by a low-value, far-from-expiry, non-premium-category batch. -/
theorem c3_economic_risk_bounds :
    (∀ (q : ℕ) (p : ℚ) (d : ℤ) (c : String),
      calculate_economic_risk_score q p d c =
        min 100 (econBaseScore ((q : ℚ) * p) * econExpiryFactor d *
          econCategoryFactor c) ∧
      12 ≤ calculate_economic_risk_score q p d c ∧
      calculate_economic_risk_score q p d c ≤ 100) ∧
    calculate_economic_risk_score 1 1 10 "dry_goods" = 12 := by
  constructor
  · intro q p d c
    refine ⟨rfl, ?_, min_le_left _ _⟩
    have h1 := econBaseScore_lb ((q : ℚ) * p)
    have h2 := econExpiryFactor_lb d
    have h3 := econCategoryFactor_lb c
    refine le_min (by norm_num) ?_
    have hb0 : (0 : ℚ) ≤ econBaseScore ((q : ℚ) * p) := by linarith
    have h12 : (15 : ℚ) * 0.8 ≤ econBaseScore ((q : ℚ) * p) * econExpiryFactor d :=
      mul_le_mul h1 h2 (by norm_num) hb0
    have hbe0 : (0 : ℚ) ≤ econBaseScore ((q : ℚ) * p) * econExpiryFactor d := by
      linarith
    have := mul_le_mul h12 h3 (by norm_num) hbe0
    linarith
  · unfold calculate_economic_risk_score econBaseScore econExpiryFactor econCategoryFactor
    rw [if_neg (by norm_num), if_neg (by norm_num), if_neg (by norm_num),
      if_neg (by norm_num), if_neg (by norm_num), if_neg (by omega),
      if_neg (by omega), if_neg (by omega), if_neg (by decide), if_neg (by decide)]
    norm_num

/-! ### Velocity sub-score

`ScoreGenerator.calculate_velocity_score` in `app/main.py`. Note that the
source's high-turnover guard tests `product_category` for membership in
both `['dairy', 'bakery']` and `['milk', 'bread']`. -/

/-- The `expected_rate` local of `calculate_velocity_score`. -/
def velocityExpectedRate (initial_quantity : ℕ) (product_category : String) : ℚ :=
  if (product_category = "dairy" ∨ product_category = "bakery") ∧
      (product_category = "milk" ∨ product_category = "bread") then
    (initial_quantity : ℚ) * 0.2
  else if product_category = "meat" ∨ product_category = "produce" then
    (initial_quantity : ℚ) * 0.15
  else
    (initial_quantity : ℚ) * 0.1

/-- `app/main.py`, `ScoreGenerator.calculate_velocity_score`. -/
def calculate_velocity_score (initial_quantity current_quantity : ℕ)
    (days_on_shelf : ℤ) (product_category : String) : ℤ :=
  if days_on_shelf ≤ 0 then 50
  else
    let daily_sell_rate : ℚ :=
      ((initial_quantity : ℚ) - (current_quantity : ℚ)) / (days_on_shelf : ℚ)
    let expected_rate := velocityExpectedRate initial_quantity product_category
    let velocity_ratio := if expected_rate = 0 then 1 else daily_sell_rate / expected_rate
    if 1.5 ≤ velocity_ratio then 90
    else if 1 ≤ velocity_ratio then 75
    else if 0.7 ≤ velocity_ratio then 60
    else if 0.4 ≤ velocity_ratio then 40
    else 20

/-- The per-category expected daily sell rate, as the spec's words state it:
0.20 for high-turnover milk/bread items within dairy/bakery, 0.15 for
meat/produce, 0.10 otherwise. -/
def specCategoryRate (product_category : String) : ℚ :=
  if (product_category = "dairy" ∨ product_category = "bakery") ∧
      (product_category = "milk" ∨ product_category = "bread") then 0.2
  else if product_category = "meat" ∨ product_category = "produce" then 0.15
  else 0.1

/-- The spec's velocity ratio:
`((initial - current) / days_on_shelf) / (initial * categoryRate)`, with the
ratio substituted by 1 when the expected rate is zero. -/
def specVelocityRatio (initial_quantity current_quantity : ℕ)
    (days_on_shelf : ℤ) (product_category : String) : ℚ :=
  let expected := (initial_quantity : ℚ) * specCategoryRate product_category
  if expected = 0 then 1
  else (((initial_quantity : ℚ) - (current_quantity : ℚ)) / (days_on_shelf : ℚ)) / expected

/-- The spec's descending first-match threshold map from velocity ratio to
velocity score. -/
def specRatioToScore (r : ℚ) : ℤ :=
  if 1.5 ≤ r then 90
  else if 1 ≤ r then 75
  else if 0.7 ≤ r then 60
  else if 0.4 ≤ r then 40
  else 20

theorem velocityExpectedRate_eq_spec (iq : ℕ) (c : String) :
    velocityExpectedRate iq c = (iq : ℚ) * specCategoryRate c := by
  unfold velocityExpectedRate specCategoryRate
  split_ifs <;> norm_num

/-- C5: for positive `days_on_shelf` the velocity score is the descending
first-match threshold map applied to the spec's velocity ratio (built from
`expected_rate = initial_quantity * categoryRate`), and for
`days_on_shelf ≤ 0` it is the fixed default 50. The high-turnover 0.20 rate
requires the category to be simultaneously in dairy/bakery and in
milk/bread, so the plain `dairy` and `bakery` categories fall to 0.10. -/
theorem c5_velocity_score_spec (iq cq : ℕ) (dos : ℤ) (c : String) :
    (dos ≤ 0 → calculate_velocity_score iq cq dos c = 50) ∧
      (0 < dos → calculate_velocity_score iq cq dos c =
        specRatioToScore (specVelocityRatio iq cq dos c)) ∧
      velocityExpectedRate iq "dairy" = (iq : ℚ) * 0.1 ∧
      velocityExpectedRate iq "bakery" = (iq : ℚ) * 0.1 := by
  refine ⟨fun h => by unfold calculate_velocity_score; simp [h], fun h => ?_, ?_, ?_⟩
  · unfold calculate_velocity_score specRatioToScore specVelocityRatio
    rw [if_neg (by omega), velocityExpectedRate_eq_spec]
  · unfold velocityExpectedRate
    rw [if_neg (by decide), if_neg (by decide)]
  · unfold velocityExpectedRate
    rw [if_neg (by decide), if_neg (by decide)]

/-- Witness for C5: both branches at concrete inputs. -/
theorem c5_velocity_score_spec_witness :
    calculate_velocity_score 100 40 0 "bakery" = 50 ∧
      calculate_velocity_score 100 40 3 "meat" =
        specRatioToScore (specVelocityRatio 100 40 3 "meat") :=
  ⟨(c5_velocity_score_spec 100 40 0 "bakery").1 (by decide),
    (c5_velocity_score_spec 100 40 3 "meat").2.1 (by decide)⟩

/-- C6: the velocity computation is total and guarded: `days_on_shelf ≤ 0`
yields the fixed default 50 instead of dividing; a zero expected rate (in
particular `initial_quantity = 0`) substitutes a velocity ratio of 1 and
yields 75; and on every input the result is one of the defined scores. -/
theorem c6_velocity_guards (iq cq : ℕ) (dos : ℤ) (c : String) :
    (dos ≤ 0 → calculate_velocity_score iq cq dos c = 50) ∧
      (0 < dos → velocityExpectedRate iq c = 0 →
        calculate_velocity_score iq cq dos c = 75) ∧
      (0 < dos → iq = 0 → calculate_velocity_score iq cq dos c = 75) ∧
      (calculate_velocity_score iq cq dos c = 20 ∨
        calculate_velocity_score iq cq dos c = 40 ∨
        calculate_velocity_score iq cq dos c = 50 ∨
        calculate_velocity_score iq cq dos c = 60 ∨
        calculate_velocity_score iq cq dos c = 75 ∨
        calculate_velocity_score iq cq dos c = 90) := by
  have hzero : iq = 0 → velocityExpectedRate iq c = 0 := by
    intro h
    unfold velocityExpectedRate
    subst h
    split_ifs <;> norm_num
  have hsub : 0 < dos → velocityExpectedRate iq c = 0 →
      calculate_velocity_score iq cq dos c = 75 := by
    intro hd he
    unfold calculate_velocity_score
    rw [if_neg (by omega)]
    simp only [he, if_pos rfl]
    norm_num
  refine ⟨fun h => by unfold calculate_velocity_score; simp [h],
    hsub, fun hd h0 => hsub hd (hzero h0), ?_⟩
  simp only [calculate_velocity_score]
  split_ifs <;> simp

/-- Witness for C6: the `initial_quantity = 0` edge case yields 75, and
`days_on_shelf = 0` yields 50. -/
theorem c6_velocity_guards_witness :
    calculate_velocity_score 0 0 5 "dairy" = 75 ∧
      calculate_velocity_score 10 3 0 "dairy" = 50 :=
  ⟨(c6_velocity_guards 0 0 5 "dairy").2.2.1 (by decide) rfl,
    (c6_velocity_guards 10 3 0 "dairy").1 (by decide)⟩

/-! ### The full score record

`ScoreGenerator.generate_score` in `app/main.py`. A batch dictionary is
flattened into a structure; `category` stands for the `category` field of
the product record the batch's `product_id` refers to (the scorer looks it
up in `product_lookup`). -/

/-- The batch fields consumed by the scoring pipeline. -/
structure Batch where
  initial_quantity : ℕ
  current_quantity : ℕ
  current_price : ℚ
  original_price : ℚ
  received_date : ℤ
  expiry_date : ℤ
  status : String
  category : String

/-- The score record built by `generate_score` (bookkeeping ids omitted). -/
structure Score where
  urgency_score : ℚ
  economic_risk_score : ℚ
  velocity_score : ℚ
  composite_score : ℚ
  days_until_expiry : ℤ
  revenue_at_risk : ℚ
  recommended_action : String
  suggested_discount_percent : ℤ
  predicted_waste_quantity : ℤ
  predicted_waste_value : ℚ
  confidence_level : ℚ
  scored_at : ℤ
  valid_until : ℤ

/-- The recommended-action / suggested-discount chain of `generate_score`,
evaluated in the source's order (first match wins). -/
def scoreAction (urgency_score velocity_score : ℤ) : String × ℤ :=
  if 90 ≤ urgency_score then ("immediate_markdown", 50)
  else if 70 ≤ urgency_score then ("mark_down", 30)
  else if 50 ≤ urgency_score then ("display_prominently", 20)
  else if velocity_score ≤ 30 then ("promotional_bundle", 15)
  else ("monitor", 0)

/-- The waste-prediction block of `generate_score`: returns
`(predicted_waste_quantity, confidence_level)`. `rng i lo hi` is the value
of the `i`-th `random.uniform(lo, hi)` call of the block. -/
def wastePrediction (rng : ℕ → ℚ → ℚ → ℚ) (days_until_expiry : ℤ)
    (current_quantity : ℕ) (product_category : String) : ℤ × ℚ :=
  if days_until_expiry ≤ 0 then ((current_quantity : ℤ), 0.95)
  else if days_until_expiry ≤ 3 then
    let waste_percent :=
      if product_category = "bakery" ∨ product_category = "produce" then rng 0 0.7 0.9
      else if product_category = "dairy" ∨ product_category = "meat" then rng 0 0.5 0.7
      else rng 0 0.3 0.5
    (pyTrunc ((current_quantity : ℚ) * waste_percent), rng 1 0.8 0.9)
  else if days_until_expiry ≤ 7 then
    let waste_percent :=
      if product_category = "bakery" ∨ product_category = "produce" then rng 0 0.4 0.6
      else if product_category = "dairy" ∨ product_category = "meat" then rng 0 0.2 0.4
      else rng 0 0.1 0.2
    (pyTrunc ((current_quantity : ℚ) * waste_percent), rng 1 0.7 0.8)
  else
    (pyTrunc ((current_quantity : ℚ) * rng 0 0.05 0.15), rng 1 0.6 0.7)

/-- `app/main.py`, `ScoreGenerator.generate_score`. -/
def generateScore (rng : ℕ → ℚ → ℚ → ℚ) (b : Batch) (current_date : ℤ) : Score :=
  let days_until_expiry := b.expiry_date - current_date
  let days_on_shelf := current_date - b.received_date
  let urgency_score := calculate_urgency_score days_until_expiry b.category
  let economic_risk_score :=
    calculate_economic_risk_score b.current_quantity b.current_price
      days_until_expiry b.category
  let velocity_score :=
    calculate_velocity_score b.initial_quantity b.current_quantity
      days_on_shelf b.category
  let composite_score := (urgency_score : ℚ) * 0.4 +
    economic_risk_score * 0.4 + (velocity_score : ℚ) * 0.2
  let act := scoreAction urgency_score velocity_score
  let wc := wastePrediction rng days_until_expiry b.current_quantity b.category
  { urgency_score := pyRound2 (urgency_score : ℚ)
    economic_risk_score := pyRound2 economic_risk_score
    velocity_score := pyRound2 (velocity_score : ℚ)
    composite_score := pyRound2 composite_score
    days_until_expiry := days_until_expiry
    revenue_at_risk := pyRound2 ((b.current_quantity : ℚ) * b.current_price)
    recommended_action := act.1
    suggested_discount_percent := act.2
    predicted_waste_quantity := wc.1
    predicted_waste_value := pyRound2 ((wc.1 : ℚ) * b.current_price)
    confidence_level := pyRound2 wc.2
    scored_at := current_date
    valid_until := current_date + 1 }

/-- C9: the three sub-scores are deterministic functions of the batch and
the as-of date — they do not depend on the random source at all (only the
waste-prediction band does). -/
theorem c9_subscores_deterministic (rng1 rng2 : ℕ → ℚ → ℚ → ℚ)
    (b : Batch) (current_date : ℤ) :
    (generateScore rng1 b current_date).urgency_score =
        (generateScore rng2 b current_date).urgency_score ∧
      (generateScore rng1 b current_date).economic_risk_score =
        (generateScore rng2 b current_date).economic_risk_score ∧
      (generateScore rng1 b current_date).velocity_score =
        (generateScore rng2 b current_date).velocity_score :=
  ⟨rfl, rfl, rfl⟩

/-- C2: the action policy keys on `urgency_score` and `velocity_score`
(never on the composite): exactly one of the five actions is selected, by
the strict-order thresholds `urgency ≥ 90 → immediate_markdown (50)`,
`≥ 70 → mark_down (30)`, `≥ 50 → display_prominently (20)`,
`velocity ≤ 30 → promotional_bundle (15)`, otherwise `monitor (0)`; the
suggested discount is 0 exactly for `monitor`. -/
theorem c2_action_policy (rng : ℕ → ℚ → ℚ → ℚ) (b : Batch) (current_date : ℤ) :
    (((generateScore rng b current_date).recommended_action = "immediate_markdown" ∧
        (generateScore rng b current_date).suggested_discount_percent = 50) ↔
      90 ≤ calculate_urgency_score (b.expiry_date - current_date) b.category) ∧
    (((generateScore rng b current_date).recommended_action = "mark_down" ∧
        (generateScore rng b current_date).suggested_discount_percent = 30) ↔
      (70 ≤ calculate_urgency_score (b.expiry_date - current_date) b.category ∧
        calculate_urgency_score (b.expiry_date - current_date) b.category < 90)) ∧
    (((generateScore rng b current_date).recommended_action = "display_prominently" ∧
        (generateScore rng b current_date).suggested_discount_percent = 20) ↔
      (50 ≤ calculate_urgency_score (b.expiry_date - current_date) b.category ∧
        calculate_urgency_score (b.expiry_date - current_date) b.category < 70)) ∧
    (((generateScore rng b current_date).recommended_action = "promotional_bundle" ∧
        (generateScore rng b current_date).suggested_discount_percent = 15) ↔
      (calculate_urgency_score (b.expiry_date - current_date) b.category < 50 ∧
        calculate_velocity_score b.initial_quantity b.current_quantity
          (current_date - b.received_date) b.category ≤ 30)) ∧
    (((generateScore rng b current_date).recommended_action = "monitor" ∧
        (generateScore rng b current_date).suggested_discount_percent = 0) ↔
      (calculate_urgency_score (b.expiry_date - current_date) b.category < 50 ∧
        30 < calculate_velocity_score b.initial_quantity b.current_quantity
          (current_date - b.received_date) b.category)) ∧
    ((generateScore rng b current_date).suggested_discount_percent = 0 ↔
      (generateScore rng b current_date).recommended_action = "monitor") := by
  simp only [generateScore, scoreAction]
  split_ifs <;> refine ⟨?_, ?_, ?_, ?_, ?_, ?_⟩ <;> simp <;> omega

theorem econBaseScore_five_mul (v : ℚ) : ∃ k : ℤ, econBaseScore v = 5 * k := by
  unfold econBaseScore
  split_ifs
  exacts [⟨18, by norm_num⟩, ⟨15, by norm_num⟩, ⟨12, by norm_num⟩,
    ⟨9, by norm_num⟩, ⟨6, by norm_num⟩, ⟨3, by norm_num⟩]

theorem econExpiryFactor_tenth (d : ℤ) : ∃ a : ℤ, econExpiryFactor d = (a : ℚ) / 10 := by
  unfold econExpiryFactor
  split_ifs
  exacts [⟨12, by norm_num⟩, ⟨11, by norm_num⟩, ⟨10, by norm_num⟩, ⟨8, by norm_num⟩]

theorem econCategoryFactor_tenth (c : String) :
    ∃ a : ℤ, econCategoryFactor c = (a : ℚ) / 10 := by
  unfold econCategoryFactor
  split_ifs
  exacts [⟨12, by norm_num⟩, ⟨11, by norm_num⟩, ⟨10, by norm_num⟩]

/-- 40 times the economic-risk score is an integer (its base is a multiple
of 5 and the two factors have one decimal place), so the composite score is
an exact two-decimal amount and `round(x, 2)` leaves it unchanged. -/
theorem exists_int_forty_mul_econ (q : ℕ) (p : ℚ) (d : ℤ) (c : String) :
    ∃ m : ℤ, (40 : ℚ) * calculate_economic_risk_score q p d c = (m : ℚ) := by
  obtain ⟨k, hk⟩ := econBaseScore_five_mul ((q : ℚ) * p)
  obtain ⟨a, ha⟩ := econExpiryFactor_tenth d
  obtain ⟨e, he⟩ := econCategoryFactor_tenth c
  unfold calculate_economic_risk_score
  rcases le_total (econBaseScore ((q : ℚ) * p) * econExpiryFactor d *
      econCategoryFactor c) 100 with h | h
  · refine ⟨2 * k * a * e, ?_⟩
    rw [min_eq_right h, hk, ha, he]
    push_cast
    ring
  · refine ⟨4000, ?_⟩
    rw [min_eq_left h]
    norm_num

/-- C4: the composite score stored on every score record is exactly
`urgency * 0.4 + economic_risk * 0.4 + velocity * 0.2` — the canonical
unweighted scheme, with no category multiplier and no final clamp to
`[0, 100]` (the stored `round(·, 2)` is the identity here because the
weighted sum is an exact two-decimal amount). -/
theorem c4_composite_is_canonical_weighted_sum (rng : ℕ → ℚ → ℚ → ℚ)
    (b : Batch) (current_date : ℤ) :
    (generateScore rng b current_date).composite_score =
      (calculate_urgency_score (b.expiry_date - current_date) b.category : ℚ) * 0.4 +
        calculate_economic_risk_score b.current_quantity b.current_price
          (b.expiry_date - current_date) b.category * 0.4 +
        (calculate_velocity_score b.initial_quantity b.current_quantity
          (current_date - b.received_date) b.category : ℚ) * 0.2 := by
  obtain ⟨m, hm⟩ := exists_int_forty_mul_econ b.current_quantity b.current_price
    (b.expiry_date - current_date) b.category
  show pyRound2 _ = _
  apply pyRound2_eq_self _
    (40 * calculate_urgency_score (b.expiry_date - current_date) b.category + m +
      20 * calculate_velocity_score b.initial_quantity b.current_quantity
        (current_date - b.received_date) b.category)
  push_cast
  linarith

/-! ### Waste-prediction bands (C7) -/

/-- The spec's waste-fraction range for `days_until_expiry ≤ 3`:
bakery/produce 0.70–0.90, dairy/meat 0.50–0.70, other 0.30–0.50. -/
def specWasteBand3 (c : String) : ℚ × ℚ :=
  if c = "bakery" ∨ c = "produce" then (0.7, 0.9)
  else if c = "dairy" ∨ c = "meat" then (0.5, 0.7)
  else (0.3, 0.5)

/-- The spec's waste-fraction range for `3 < days_until_expiry ≤ 7`:
bakery/produce 0.40–0.60, dairy/meat 0.20–0.40, other 0.10–0.20. -/
def specWasteBand7 (c : String) : ℚ × ℚ :=
  if c = "bakery" ∨ c = "produce" then (0.4, 0.6)
  else if c = "dairy" ∨ c = "meat" then (0.2, 0.4)
  else (0.1, 0.2)

/-- A faithful oracle for `random.uniform`: every draw lies inside the
requested interval. -/
def RngFaithful (rng : ℕ → ℚ → ℚ → ℚ) : Prop :=
  ∀ (i : ℕ) (lo hi : ℚ), lo ≤ hi → lo ≤ rng i lo hi ∧ rng i lo hi ≤ hi

theorem generateScore_pwq (rng : ℕ → ℚ → ℚ → ℚ) (b : Batch) (cur : ℤ) :
    (generateScore rng b cur).predicted_waste_quantity =
      (wastePrediction rng (b.expiry_date - cur) b.current_quantity b.category).1 :=
  rfl

theorem generateScore_conf (rng : ℕ → ℚ → ℚ → ℚ) (b : Batch) (cur : ℤ) :
    (generateScore rng b cur).confidence_level =
      pyRound2 (wastePrediction rng (b.expiry_date - cur) b.current_quantity b.category).2 :=
  rfl

theorem generateScore_pwv (rng : ℕ → ℚ → ℚ → ℚ) (b : Batch) (cur : ℤ) :
    (generateScore rng b cur).predicted_waste_value =
      pyRound2
        (((wastePrediction rng (b.expiry_date - cur) b.current_quantity b.category).1 : ℚ) *
          b.current_price) :=
  rfl

theorem generateScore_rar (rng : ℕ → ℚ → ℚ → ℚ) (b : Batch) (cur : ℤ) :
    (generateScore rng b cur).revenue_at_risk =
      pyRound2 ((b.current_quantity : ℚ) * b.current_price) :=
  rfl

theorem wastePrediction_spec (rng : ℕ → ℚ → ℚ → ℚ) (d : ℤ) (cq : ℕ) (c : String)
    (hr : RngFaithful rng) :
    (d ≤ 0 → wastePrediction rng d cq c = ((cq : ℤ), 0.95)) ∧
      (0 < d → d ≤ 3 →
        (∃ w, (specWasteBand3 c).1 ≤ w ∧ w ≤ (specWasteBand3 c).2 ∧
          (wastePrediction rng d cq c).1 = pyTrunc ((cq : ℚ) * w)) ∧
        0.8 ≤ (wastePrediction rng d cq c).2 ∧ (wastePrediction rng d cq c).2 ≤ 0.9) ∧
      (3 < d → d ≤ 7 →
        (∃ w, (specWasteBand7 c).1 ≤ w ∧ w ≤ (specWasteBand7 c).2 ∧
          (wastePrediction rng d cq c).1 = pyTrunc ((cq : ℚ) * w)) ∧
        0.7 ≤ (wastePrediction rng d cq c).2 ∧ (wastePrediction rng d cq c).2 ≤ 0.8) ∧
      (7 < d →
        (∃ w, 0.05 ≤ w ∧ w ≤ 0.15 ∧
          (wastePrediction rng d cq c).1 = pyTrunc ((cq : ℚ) * w)) ∧
        0.6 ≤ (wastePrediction rng d cq c).2 ∧ (wastePrediction rng d cq c).2 ≤ 0.7) := by
  refine ⟨fun h => ?_, fun h1 h2 => ?_, fun h1 h2 => ?_, fun h1 => ?_⟩
  · simp only [wastePrediction, if_pos h]
  · simp only [wastePrediction, if_neg (by omega : ¬ d ≤ 0), if_pos h2]
    refine ⟨?_, (hr 1 0.8 0.9 (by norm_num)).1, (hr 1 0.8 0.9 (by norm_num)).2⟩
    unfold specWasteBand3
    split_ifs with hc1 hc2
    · exact ⟨rng 0 0.7 0.9, (hr 0 0.7 0.9 (by norm_num)).1,
        (hr 0 0.7 0.9 (by norm_num)).2, rfl⟩
    · exact ⟨rng 0 0.5 0.7, (hr 0 0.5 0.7 (by norm_num)).1,
        (hr 0 0.5 0.7 (by norm_num)).2, rfl⟩
    · exact ⟨rng 0 0.3 0.5, (hr 0 0.3 0.5 (by norm_num)).1,
        (hr 0 0.3 0.5 (by norm_num)).2, rfl⟩
  · simp only [wastePrediction, if_neg (by omega : ¬ d ≤ 0),
      if_neg (by omega : ¬ d ≤ 3), if_pos h2]
    refine ⟨?_, (hr 1 0.7 0.8 (by norm_num)).1, (hr 1 0.7 0.8 (by norm_num)).2⟩
    unfold specWasteBand7
    split_ifs with hc1 hc2
    · exact ⟨rng 0 0.4 0.6, (hr 0 0.4 0.6 (by norm_num)).1,
        (hr 0 0.4 0.6 (by norm_num)).2, rfl⟩
    · exact ⟨rng 0 0.2 0.4, (hr 0 0.2 0.4 (by norm_num)).1,
        (hr 0 0.2 0.4 (by norm_num)).2, rfl⟩
    · exact ⟨rng 0 0.1 0.2, (hr 0 0.1 0.2 (by norm_num)).1,
        (hr 0 0.1 0.2 (by norm_num)).2, rfl⟩
  · simp only [wastePrediction, if_neg (by omega : ¬ d ≤ 0),
      if_neg (by omega : ¬ d ≤ 3), if_neg (by omega : ¬ d ≤ 7)]
    exact ⟨⟨rng 0 0.05 0.15, (hr 0 0.05 0.15 (by norm_num)).1,
        (hr 0 0.05 0.15 (by norm_num)).2, rfl⟩,
      (hr 1 0.6 0.7 (by norm_num)).1, (hr 1 0.6 0.7 (by norm_num)).2⟩

/-- C7: waste prediction follows the day bands — `days_until_expiry ≤ 0`
predicts the whole current quantity with confidence 0.95; `≤ 3` draws a
fraction from the category band 0.70–0.90 / 0.50–0.70 / 0.30–0.50 with
confidence in 0.80–0.90; `≤ 7` uses 0.40–0.60 / 0.20–0.40 / 0.10–0.20 with
confidence in 0.70–0.80; `> 7` uses 0.05–0.15 with confidence in 0.60–0.70;
and whatever was drawn, `predicted_waste_value` is
`predicted_waste_quantity * current_price` and `revenue_at_risk` is
`current_quantity * current_price` (the current price being an exact
two-decimal amount, the stored rounding is the identity). -/
theorem c7_waste_prediction_bands (rng : ℕ → ℚ → ℚ → ℚ) (b : Batch)
    (current_date : ℤ) (m : ℤ) (hr : RngFaithful rng)
    (hm : 100 * b.current_price = (m : ℚ)) :
    (b.expiry_date - current_date ≤ 0 →
      (generateScore rng b current_date).predicted_waste_quantity =
          (b.current_quantity : ℤ) ∧
        (generateScore rng b current_date).confidence_level = 0.95) ∧
    (0 < b.expiry_date - current_date → b.expiry_date - current_date ≤ 3 →
      (∃ w, (specWasteBand3 b.category).1 ≤ w ∧ w ≤ (specWasteBand3 b.category).2 ∧
        (generateScore rng b current_date).predicted_waste_quantity =
          pyTrunc ((b.current_quantity : ℚ) * w)) ∧
      0.8 ≤ (generateScore rng b current_date).confidence_level ∧
      (generateScore rng b current_date).confidence_level ≤ 0.9) ∧
    (3 < b.expiry_date - current_date → b.expiry_date - current_date ≤ 7 →
      (∃ w, (specWasteBand7 b.category).1 ≤ w ∧ w ≤ (specWasteBand7 b.category).2 ∧
        (generateScore rng b current_date).predicted_waste_quantity =
          pyTrunc ((b.current_quantity : ℚ) * w)) ∧
      0.7 ≤ (generateScore rng b current_date).confidence_level ∧
      (generateScore rng b current_date).confidence_level ≤ 0.8) ∧
    (7 < b.expiry_date - current_date →
      (∃ w, 0.05 ≤ w ∧ w ≤ 0.15 ∧
        (generateScore rng b current_date).predicted_waste_quantity =
          pyTrunc ((b.current_quantity : ℚ) * w)) ∧
      0.6 ≤ (generateScore rng b current_date).confidence_level ∧
      (generateScore rng b current_date).confidence_level ≤ 0.7) ∧
    (generateScore rng b current_date).predicted_waste_value =
      ((generateScore rng b current_date).predicted_waste_quantity : ℚ) *
        b.current_price ∧
    (generateScore rng b current_date).revenue_at_risk =
      (b.current_quantity : ℚ) * b.current_price := by
  obtain ⟨w0, w3, w7, wfar⟩ := wastePrediction_spec rng (b.expiry_date - current_date)
    b.current_quantity b.category hr
  have hconf : ∀ (a c : ℤ), ((a : ℚ) / 100 ≤
      (wastePrediction rng (b.expiry_date - current_date) b.current_quantity b.category).2) →
      ((wastePrediction rng (b.expiry_date - current_date) b.current_quantity b.category).2 ≤
        (c : ℚ) / 100) →
      (a : ℚ) / 100 ≤ (generateScore rng b current_date).confidence_level ∧
        (generateScore rng b current_date).confidence_level ≤ (c : ℚ) / 100 := by
    intro a c ha hc
    rw [generateScore_conf]
    exact pyRound2_mem_Icc _ a c ha hc
  refine ⟨fun h => ?_, fun h1 h2 => ?_, fun h1 h2 => ?_, fun h1 => ?_, ?_, ?_⟩
  · rw [generateScore_pwq, generateScore_conf, w0 h]
    exact ⟨rfl, pyRound2_eq_self _ 95 (by norm_num)⟩
  · obtain ⟨hw, hlo, hhi⟩ := w3 h1 h2
    have := hconf 80 90 (by push_cast; linarith) (by push_cast; linarith)
    rw [generateScore_pwq]
    refine ⟨hw, by linarith [this.1], by linarith [this.2]⟩
  · obtain ⟨hw, hlo, hhi⟩ := w7 h1 h2
    have := hconf 70 80 (by push_cast; linarith) (by push_cast; linarith)
    rw [generateScore_pwq]
    refine ⟨hw, by linarith [this.1], by linarith [this.2]⟩
  · obtain ⟨hw, hlo, hhi⟩ := wfar h1
    have := hconf 60 70 (by push_cast; linarith) (by push_cast; linarith)
    rw [generateScore_pwq]
    refine ⟨hw, by linarith [this.1], by linarith [this.2]⟩
  · rw [generateScore_pwv, generateScore_pwq]
    apply pyRound2_eq_self _
      ((wastePrediction rng (b.expiry_date - current_date) b.current_quantity
        b.category).1 * m)
    push_cast
    linear_combination ((wastePrediction rng (b.expiry_date - current_date)
      b.current_quantity b.category).1 : ℚ) * hm
  · rw [generateScore_rar]
    apply pyRound2_eq_self _ ((b.current_quantity : ℤ) * m)
    push_cast
    linear_combination ((b.current_quantity : ℕ) : ℚ) * hm

/-- The lower-endpoint oracle: `uniform(lo, hi)` always returns `lo`. It is
a faithful draw for every nonempty interval. -/
def rngLow : ℕ → ℚ → ℚ → ℚ := fun _ lo _ => lo

theorem rngLow_faithful : RngFaithful rngLow :=
  fun _ lo _ h => ⟨le_refl lo, h⟩

/-- A concrete already-expired batch used to instantiate C7. -/
def c7Batch : Batch :=
  { initial_quantity := 12, current_quantity := 7, current_price := 2.5,
    original_price := 3, received_date := -10, expiry_date := -1,
    status := "active", category := "dairy" }

/-- Witness for C7: a batch expired one day ago predicts its whole current
quantity as waste with confidence 0.95. -/
theorem c7_waste_prediction_bands_witness :
    (generateScore rngLow c7Batch 0).predicted_waste_quantity = (7 : ℤ) ∧
      (generateScore rngLow c7Batch 0).confidence_level = 0.95 :=
  (c7_waste_prediction_bands rngLow c7Batch 0 250 rngLow_faithful
    (by norm_num [c7Batch])).1 (by decide)

/-! ### The batch-scoring pipeline (C10)

`ScoreGenerator.generate` scores only batches with status `active` and a
positive quantity; `BatchGenerator.generate_batch` decides a batch's
markdown price, remaining quantity and status from the same `current_date`
(`END_DATE`) that the scoring pass later uses. -/

/-- `app/main.py`, `ScoreGenerator.generate`: score every batch whose
status is `'active'` and whose `current_quantity` is positive. -/
def scoreGenerate (rng : ℕ → ℚ → ℚ → ℚ) (batches : List Batch)
    (current_date : ℤ) : List Score :=
  (batches.filter fun b => decide (b.status = "active" ∧ 0 < b.current_quantity)).map
    fun b => generateScore rng b current_date

/-- The markdown pricing of `BatchGenerator.generate_batch`: 50% off when
expiring within a day, 30% off within 3 days, 10% off within 7 days. -/
def generateBatchPricing (days_until_expiry : ℤ) (original_price : ℚ) : ℚ :=
  if days_until_expiry ≤ 1 then pyRound2 (original_price * 0.5)
  else if days_until_expiry ≤ 3 then pyRound2 (original_price * 0.7)
  else if days_until_expiry ≤ 7 then pyRound2 (original_price * 0.9)
  else original_price

/-- The price/quantity/status block of `BatchGenerator.generate_batch`:
expired batches (strictly negative `days_until_expiry`) get quantity 0 and
status `'expired'`; otherwise the remaining quantity follows the drawn
daily sell rate and the status is `'marked_down'` exactly when the current
price fell below the original. Returns
`(current_price, current_quantity, status)`. -/
def generateBatchState (days_until_expiry days_on_shelf : ℤ)
    (original_price : ℚ) (initial_quantity : ℕ) (daily_sell_rate : ℚ) :
    ℚ × ℕ × String :=
  let current_price := generateBatchPricing days_until_expiry original_price
  if days_until_expiry < 0 then (current_price, 0, "expired")
  else
    let remaining_percent := max 0 (1 - (days_on_shelf : ℚ) * daily_sell_rate)
    let current_quantity := (pyTrunc ((initial_quantity : ℚ) * remaining_percent)).toNat
    let status := if current_price < original_price then "marked_down" else "active"
    (current_price, current_quantity, status)

/-- Rounding half of a positive two-decimal amount back to two decimals
always loses something: `roundHalfEven (m / 2) < m` for positive `m`. -/
theorem roundHalfEven_half_lt (m : ℤ) (hm : 0 < m) :
    roundHalfEven ((m : ℚ) / 2) < m := by
  have hfl : (⌊(m : ℚ) / 2⌋ : ℚ) ≤ (m : ℚ) / 2 := Int.floor_le _
  have hub : (m : ℚ) / 2 < (⌊(m : ℚ) / 2⌋ : ℚ) + 1 := Int.lt_floor_add_one _
  have h2f : 2 * ⌊(m : ℚ) / 2⌋ ≤ m := by
    have : ((2 * ⌊(m : ℚ) / 2⌋ : ℤ) : ℚ) ≤ (m : ℚ) := by push_cast; linarith
    exact_mod_cast this
  have hub2 : m ≤ 2 * ⌊(m : ℚ) / 2⌋ + 1 := by
    have h' : ((m : ℤ) : ℚ) < ((2 * ⌊(m : ℚ) / 2⌋ + 2 : ℤ) : ℚ) := by push_cast; linarith
    have : (m : ℤ) < 2 * ⌊(m : ℚ) / 2⌋ + 2 := by exact_mod_cast h'
    omega
  have hfr : Int.fract ((m : ℚ) / 2) = (m : ℚ) / 2 - (⌊(m : ℚ) / 2⌋ : ℚ) := rfl
  unfold roundHalfEven
  split_ifs with h1 h2 h3
  · omega
  · rw [hfr] at h2
    have h' : ((2 * ⌊(m : ℚ) / 2⌋ + 1 : ℤ) : ℚ) < ((m : ℤ) : ℚ) := by push_cast; linarith
    have : 2 * ⌊(m : ℚ) / 2⌋ + 1 < (m : ℤ) := by exact_mod_cast h'
    omega
  · omega
  · have heq : Int.fract ((m : ℚ) / 2) = 1 / 2 :=
      le_antisymm (not_lt.mp h2) (not_lt.mp h1)
    rw [hfr] at heq
    have : ((m : ℤ) : ℚ) = ((2 * ⌊(m : ℚ) / 2⌋ + 1 : ℤ) : ℚ) := by push_cast; linarith
    have := (Int.cast_injective (α := ℚ)) this
    omega

/-- A 50% markdown of a positive two-decimal price is strictly below the
original price even after rounding back to two decimals. -/
theorem markdown_half_lt (o : ℚ) (m : ℤ) (hm : 0 < m) (hmo : (m : ℚ) / 100 = o) :
    pyRound2 (o * 0.5) < o := by
  unfold pyRound2
  have harg : o * 0.5 * 100 = (m : ℚ) / 2 := by rw [← hmo]; ring
  rw [harg, ← hmo]
  have h := roundHalfEven_half_lt m hm
  have : ((roundHalfEven ((m : ℚ) / 2)) : ℚ) < (m : ℚ) := by exact_mod_cast h
  linarith

theorem urgency_lt_100_of_pos (d : ℤ) (c : String) (h : 0 < d) :
    calculate_urgency_score d c < 100 := by
  unfold calculate_urgency_score
  split_ifs <;> omega

theorem generateScore_urgency (rng : ℕ → ℚ → ℚ → ℚ) (b : Batch) (cur : ℤ) :
    (generateScore rng b cur).urgency_score =
      pyRound2 ((calculate_urgency_score (b.expiry_date - cur) b.category : ℤ) : ℚ) :=
  rfl

/-- C10: every record emitted by the bulk scoring pass comes from a batch
with status `'active'` and positive quantity; the batch generator gives
quantity 0 and status `'expired'` to every batch whose expiry date has
passed (`days_until_expiry < 0`); a generated batch with a positive
two-decimal original price can only be `'active'` with strictly positive
`days_until_expiry` (at `d ∈ {0, 1}` the 50% markdown forces
`'marked_down'`); and a scored batch with positive `days_until_expiry`
never takes the expired branches (its urgency score stays below 100). -/
theorem c10_pipeline_never_scores_expired :
    (∀ (rng : ℕ → ℚ → ℚ → ℚ) (batches : List Batch) (current_date : ℤ) (s : Score),
      s ∈ scoreGenerate rng batches current_date →
        ∃ b, b ∈ batches ∧ b.status = "active" ∧ 0 < b.current_quantity ∧
          s = generateScore rng b current_date) ∧
    (∀ (d dos : ℤ) (o : ℚ) (iq : ℕ) (r : ℚ), d < 0 →
      (generateBatchState d dos o iq r).2.1 = 0 ∧
        (generateBatchState d dos o iq r).2.2 = "expired") ∧
    (∀ (d dos : ℤ) (o : ℚ) (iq : ℕ) (r : ℚ) (m : ℤ), 0 < m → (m : ℚ) / 100 = o →
      (generateBatchState d dos o iq r).2.2 = "active" → 0 < d) ∧
    (∀ (rng : ℕ → ℚ → ℚ → ℚ) (b : Batch) (current_date : ℤ),
      0 < b.expiry_date - current_date →
        (generateScore rng b current_date).urgency_score < 100 ∧
          0 < (generateScore rng b current_date).days_until_expiry) := by
  refine ⟨?_, ?_, ?_, ?_⟩
  · intro rng batches current_date s hs
    unfold scoreGenerate at hs
    obtain ⟨b, hb, rfl⟩ := List.mem_map.mp hs
    obtain ⟨hmem, hcond⟩ := List.mem_filter.mp hb
    have hc := of_decide_eq_true hcond
    exact ⟨b, hmem, hc.1, hc.2, rfl⟩
  · intro d dos o iq r h
    simp only [generateBatchState]
    rw [if_pos h]
    exact ⟨rfl, rfl⟩
  · intro d dos o iq r m hm hmo hact
    by_contra hd
    simp only [generateBatchState] at hact
    by_cases hneg : d < 0
    · rw [if_pos hneg] at hact
      simp at hact
    · rw [if_neg hneg] at hact
      replace hact :
          (if generateBatchPricing d o < o then "marked_down" else "active") =
            "active" := hact
      have hlt : generateBatchPricing d o < o := by
        unfold generateBatchPricing
        rw [if_pos (by omega : d ≤ 1)]
        exact markdown_half_lt o m hm hmo
      rw [if_pos hlt] at hact
      simp at hact
  · intro rng b current_date h
    constructor
    · rw [generateScore_urgency, pyRound2_intCast]
      have := urgency_lt_100_of_pos (b.expiry_date - current_date) b.category h
      exact_mod_cast this
    · exact h

/-- A concrete healthy batch used to instantiate C10. -/
def c10Batch : Batch :=
  { initial_quantity := 10, current_quantity := 5, current_price := 2,
    original_price := 2, received_date := -5, expiry_date := 20,
    status := "active", category := "dairy" }

/-- Witness for C10: all four components instantiated at concrete data. -/
theorem c10_pipeline_never_scores_expired_witness :
    (∃ b, b ∈ [c10Batch] ∧ b.status = "active" ∧ 0 < b.current_quantity ∧
      generateScore rngLow c10Batch 0 = generateScore rngLow b 0) ∧
    ((generateBatchState (-1) 3 2 10 (1/10)).2.1 = 0 ∧
      (generateBatchState (-1) 3 2 10 (1/10)).2.2 = "expired") ∧
    (0 : ℤ) < 10 ∧
    ((generateScore rngLow c10Batch 0).urgency_score < 100 ∧
      0 < (generateScore rngLow c10Batch 0).days_until_expiry) := by
  obtain ⟨h1, h2, h3, h4⟩ := c10_pipeline_never_scores_expired
  have hmem : generateScore rngLow c10Batch 0 ∈ scoreGenerate rngLow [c10Batch] 0 := by
    apply List.mem_map.mpr
    refine ⟨c10Batch, List.mem_filter.mpr ⟨List.mem_singleton.mpr rfl, by decide⟩, rfl⟩
  refine ⟨h1 rngLow [c10Batch] 0 _ hmem, h2 (-1) 3 2 10 (1/10) (by decide),
    h3 10 3 2 10 (1/10) 200 (by decide) (by norm_num) ?_, h4 rngLow c10Batch 0 (by decide)⟩
  decide

end Lifo
